import Mathlib

/-!
Verification development for the feature-flags service
(repository `xNakero/feature-flags`, Go).

The Go sources are shallowly embedded:

* Go strings are byte sequences; we model them as `List Nat` of byte
  values.  All string literals occurring in the code and in the test
  scenarios are ASCII, so a literal is converted by taking the code
  point of each character (`goStr`).
* Go's sentinel errors (`internal/domain/errors.go`) are compared with
  `errors.Is`; the wrapping via `fmt.Errorf("...: %w", sentinel)` only
  adds a message, so an error is modelled by its sentinel kind alone
  (`DomainError`).
* Fallible Go functions returning `error` become `Except DomainError`.
* Go code that indexes into a string (`name[0]`, `name[len(name)-1]`)
  panics when the index is out of bounds; a possible panic is modelled
  by an `Option` layer (`none` = panic).
* `float64` payloads are never computed with, only stored and passed
  through, so the numeric payload is modelled by `Rat`.
* `time.Time` values are never inspected beyond equality, so a
  timestamp is modelled by `Nat`, and the single `time.Now().UTC()`
  call of the service becomes an explicit `now` parameter.
* The store and cache side effects of the service are modelled by
  explicit state passing plus an event trace recording each outbound
  port call and its observed outcome.
-/

namespace FeatureFlags

/-- A Go string, as its sequence of byte values. -/
abbrev GoString := List Nat

/-- Conversion of an ASCII Lean string literal to a `GoString`
(for ASCII text the UTF-8 bytes are exactly the code points). -/
def goStr (s : String) : GoString := s.data.map Char.toNat

/-- The sentinel errors of `internal/domain/errors.go`, plus `infra` for
any persistence failure that is not one of the domain sentinels
(the spec's `Infra` class). -/
inductive DomainError
  | notFound
  | alreadyExists
  | typeMismatch
  | invalidName
  | invalidValue
  | infra
deriving DecidableEq, Repr

/-- Go `type FlagType string` (`internal/domain/types.go`). -/
abbrev FlagType := GoString

/-- Go constant `FlagTypeBoolean FlagType = "boolean"`. -/
def FlagTypeBoolean : FlagType := goStr "boolean"

/-- Go constant `FlagTypeNumeric FlagType = "numeric"`. -/
def FlagTypeNumeric : FlagType := goStr "numeric"

/-- Go struct `FlagValue` (`internal/domain/types.go`): two nullable
fields `Bool *bool` and `Numeric *float64`.  A nil pointer is `none`.
The numeric payload is only ever stored and passed through, never
computed with, so it is modelled by `Rat`. -/
structure FlagValue where
  bool : Option Bool
  numeric : Option Rat
deriving DecidableEq, Repr

/-- Go struct `Flag` (`internal/domain/types.go`).  `time.Time` fields
are modelled as `Nat` timestamps. -/
structure Flag where
  name : GoString
  type : FlagType
  description : GoString
  value : FlagValue
  createdAt : Nat
  updatedAt : Nat
deriving DecidableEq, Repr

/-! ## Value-model validation (`internal/domain`, validation file) -/

/-- Go `validateNotEmpty`: error when `len(name) == 0`. -/
def validateNotEmpty (name : GoString) : Except DomainError Unit :=
  if name.length = 0 then .error .invalidName else .ok ()

/-- Go `validateMaxLength`: error when `len(name) > 63`. -/
def validateMaxLength (name : GoString) : Except DomainError Unit :=
  if name.length > 63 then .error .invalidName else .ok ()

/-- Go `validateStartsWithLetter`: reads `name[0]` (panics on the empty
string, modelled by `none`) and errors when the byte is outside
`'a'..'z'` (97..122). -/
def validateStartsWithLetter (name : GoString) : Option (Except DomainError Unit) :=
  match name.head? with
  | none => none
  | some c => some (if c < 97 ∨ c > 122 then .error .invalidName else .ok ())

/-- Go `validateNoLeadingTrailingHyphen`: reads `name[0]` and
`name[len(name)-1]` (both panic on the empty string, modelled by
`none`) and errors when either byte is `'-'` (45). -/
def validateNoLeadingTrailingHyphen (name : GoString) : Option (Except DomainError Unit) :=
  match name.head?, name.getLast? with
  | some c0, some c1 => some (if c0 = 45 ∨ c1 = 45 then .error .invalidName else .ok ())
  | _, _ => none

/-- The byte predicate of Go `validateAllowedChars`:
`(ch >= 'a' && ch <= 'z') || (ch >= '0' && ch <= '9') || ch == '-'`. -/
def allowedChar (c : Nat) : Bool :=
  (97 ≤ c && c ≤ 122) || (48 ≤ c && c ≤ 57) || c == 45

/-- Go `validateAllowedChars`: iterates over the string and errors at
the first character outside `[a-z0-9-]`.  Go ranges over runes while we
range over bytes; on the accept/reject level the two agree, since every
allowed character is a one-byte ASCII rune, every ASCII byte decodes to
itself, and any byte ≥ 0x80 belongs to a rune ≥ 0x80 (or to an invalid
sequence decoded as U+FFFD), which the rune-level loop rejects. -/
def validateAllowedChars (name : GoString) : Except DomainError Unit :=
  if name.all allowedChar then .ok () else .error .invalidName

/-- Go `ValidateFlagName` (domain validation file): runs the five
checks in source order, short-circuiting on the first error.  The outer
`Option` layer records whether an out-of-bounds string index would have
panicked (`none`); `ValidateFlagName_total` below shows it never
does. -/
def ValidateFlagName (name : GoString) : Option (Except DomainError Unit) :=
  match validateNotEmpty name with
  | .error e => some (.error e)
  | .ok () =>
    match validateMaxLength name with
    | .error e => some (.error e)
    | .ok () =>
      match validateStartsWithLetter name with
      | none => none
      | some (.error e) => some (.error e)
      | some (.ok ()) =>
        match validateNoLeadingTrailingHyphen name with
        | none => none
        | some (.error e) => some (.error e)
        | some (.ok ()) => some (validateAllowedChars name)

/-- Go `validateBooleanValue`: error iff `flagValue.Bool == nil`. -/
def validateBooleanValue (flagValue : FlagValue) : Except DomainError Unit :=
  match flagValue.bool with
  | none => .error .typeMismatch
  | some _ => .ok ()

/-- Go `validateNumericValue`: error iff `flagValue.Numeric == nil`. -/
def validateNumericValue (flagValue : FlagValue) : Except DomainError Unit :=
  match flagValue.numeric with
  | none => .error .typeMismatch
  | some _ => .ok ()

/-- Go `ValidateFlagValue`: a `switch` on the flag type with cases for
the two known kinds and an implicit `return nil` default. -/
def ValidateFlagValue (flagType : FlagType) (flagValue : FlagValue) : Except DomainError Unit :=
  if flagType = FlagTypeBoolean then validateBooleanValue flagValue
  else if flagType = FlagTypeNumeric then validateNumericValue flagValue
  else .ok ()

/-! ## Spec-side predicates for the name shape

These follow the words of the spec (invariant I2 and the five-rule
description in §4.1), for comparison against the embedded code. -/

/-- One byte is a lowercase ASCII letter. -/
def isLowerLetter (c : Nat) : Bool := 97 ≤ c && c ≤ 122

/-- Rule: the name is non-empty. -/
def ruleNonEmpty (name : GoString) : Bool := name.length != 0

/-- Rule: the name has at most 63 bytes. -/
def ruleMaxLength (name : GoString) : Bool := name.length ≤ 63

/-- Rule: the first character is a lowercase ASCII letter. -/
def ruleStartsWithLetter (name : GoString) : Bool :=
  match name.head? with
  | some c => isLowerLetter c
  | none => false

/-- Rule: the name neither starts nor ends with a hyphen. -/
def ruleNoEdgeHyphen (name : GoString) : Bool :=
  !(name.head? == some 45) && !(name.getLast? == some 45)

/-- Rule: every character is in `[a-z0-9-]`. -/
def ruleAllowedChars (name : GoString) : Bool := name.all allowedChar

/-- The plain (non-short-circuiting) conjunction of the five name
rules, in the spec's wording. -/
def nameRulesConj (name : GoString) : Bool :=
  ruleNonEmpty name && ruleMaxLength name && ruleStartsWithLetter name &&
    ruleNoEdgeHyphen name && ruleAllowedChars name

/-- Spec invariant I2, as worded in §3: starts with a lowercase ASCII
letter, contains only lowercase letters, digits and hyphens, length
between 1 and 63, no leading or trailing hyphen. -/
def specNameShapeI2 (name : GoString) : Bool :=
  ruleStartsWithLetter name && ruleAllowedChars name &&
    (1 ≤ name.length && name.length ≤ 63) && ruleNoEdgeHyphen name

/-! ## Service layer (`internal/service/flag_service.go`)

The service holds only a `port.FlagStore` (`Service` struct, lines
12-14); it has no cache field.  `port.CreateFlagRequest` /
`port.FlagResponse` / `port.FlagValue` mirror the domain shapes with
identical fields, so `port.FlagValue` is modelled by the same
`FlagValue` type and the field-by-field conversions of the source are
written out literally.

Side effects are made explicit: the store is a value of type
`List Flag` (keyed by `Flag.name`), and each outbound port call is
recorded in an event trace together with its observed outcome. -/

/-- Go struct `port.CreateFlagRequest`. -/
structure CreateFlagRequest where
  name : GoString
  type : GoString
  description : GoString
  value : FlagValue
deriving DecidableEq, Repr

/-- Go struct `port.FlagResponse`. -/
structure FlagResponse where
  name : GoString
  type : GoString
  description : GoString
  value : FlagValue
  createdAt : Nat
  updatedAt : Nat
deriving DecidableEq, Repr

/-- One outbound port call made by the service, with the outcome the
service observed (`ok = true` for success). -/
inductive Event
  | storeCreate (name : GoString) (ok : Bool)
  | storeGetByName (name : GoString) (ok : Bool)
  | storeUpdateValue (name : GoString) (ok : Bool)
  | cacheSet (name : GoString) (ok : Bool)
deriving DecidableEq, Repr

/-- Whether a flag with the given name is present in the store. -/
def storeHas (store : List Flag) (name : GoString) : Bool :=
  store.any (fun f => f.name == name)

/-- Store semantics of `FlagStore.Create`
(`internal/adapter/postgres`, `Create`): `name` is the table's primary
key, so inserting a taken name raises a uniqueness violation
(SQLSTATE 23505) which the adapter maps to `domain.ErrAlreadyExists`,
leaving the existing row unchanged; otherwise the row is inserted.
The in-memory rendering below is exactly the `fakeFlagStore.Create`
used by the service unit tests. -/
def storeCreate (store : List Flag) (flag : Flag) : Except DomainError (List Flag) :=
  if storeHas store flag.name then .error .alreadyExists
  else .ok (store ++ [flag])

/-- Store semantics of `FlagStore.GetByName`: the row with the given
name, or `ErrNotFound` (`pgx.ErrNoRows` mapped by `scanFlag`). -/
def storeGetByName (store : List Flag) (name : GoString) : Except DomainError Flag :=
  match store.find? (fun f => f.name == name) with
  | some f => .ok f
  | none => .error .notFound

/-- Store semantics of `FlagStore.UpdateValue`: overwrite the value and
refresh `updatedAt` on the existing row, returning the updated row, or
`ErrNotFound` when no row matches. -/
def storeUpdateValue (store : List Flag) (name : GoString) (flagValue : FlagValue)
    (now : Nat) : Except DomainError (Flag × List Flag) :=
  match store.find? (fun f => f.name == name) with
  | some f =>
    let updated : Flag := { f with value := flagValue, updatedAt := now }
    .ok (updated, store.map (fun g => if g.name == name then updated else g))
  | none => .error .notFound

/-- Go `parseFlagType` (`flag_service.go`): a `switch` accepting the
two known kinds and returning `ErrInvalidValue` otherwise. -/
def parseFlagType (raw : GoString) : Except DomainError FlagType :=
  if raw = FlagTypeBoolean ∨ raw = FlagTypeNumeric then .ok raw
  else .error .invalidValue

/-- Go `flagToResponse` (`flag_service.go`): field-by-field copy of the
flag into the response DTO. -/
def flagToResponse (flag : Flag) : FlagResponse :=
  { name := flag.name
    type := flag.type
    description := flag.description
    value := { bool := flag.value.bool, numeric := flag.value.numeric }
    createdAt := flag.createdAt
    updatedAt := flag.updatedAt }

/-- The service outcome of one operation: the returned result, the
store state after the call, and the trace of outbound port calls in
the order they were made. -/
structure Outcome (α : Type) where
  result : Except DomainError α
  store : List Flag
  trace : List Event
deriving Repr

/-- Go `Service.CreateFlag` (`flag_service.go`, lines 20-50).  The Go
code reads the clock once (`now := time.Now().UTC()`); the embedding
takes that instant as the `now` parameter.  The Go locals
`domainValue` (the field-by-field copy of `req.Value` into a domain
`FlagValue`) and `flag` (the stamped record) are written inline at
each of their use sites.  The service performs no cache call in this
operation: its only collaborator is the store.  On the name check the
`getD` default is unreachable: `C10_validateFlagName_total` proves
`ValidateFlagName` never returns `none`. -/
def CreateFlag (store : List Flag) (now : Nat) (req : CreateFlagRequest) :
    Outcome FlagResponse :=
  match (ValidateFlagName req.name).getD (Except.error DomainError.invalidName) with
  | .error e => { result := .error e, store := store, trace := [] }
  | .ok () =>
    match parseFlagType req.type with
    | .error e => { result := .error e, store := store, trace := [] }
    | .ok flagType =>
      match ValidateFlagValue flagType
          { bool := req.value.bool, numeric := req.value.numeric } with
      | .error e => { result := .error e, store := store, trace := [] }
      | .ok () =>
        match storeCreate store
            { name := req.name
              type := flagType
              description := req.description
              value := { bool := req.value.bool, numeric := req.value.numeric }
              createdAt := now
              updatedAt := now } with
        | .error e =>
          { result := .error e, store := store, trace := [.storeCreate req.name false] }
        | .ok store2 =>
          { result := .ok (flagToResponse
              { name := req.name
                type := flagType
                description := req.description
                value := { bool := req.value.bool, numeric := req.value.numeric }
                createdAt := now
                updatedAt := now })
            store := store2
            trace := [.storeCreate req.name true] }

/-- Modelled from the spec: the `UpdateFlagValue` orchestrator of
§4.4.  The repository snapshot implements only `CreateFlag`
(`Service` has no cache and no update operation); the inbound
`FlagService` port declaring `UpdateFlagValue`, the outbound
`FlagStore.UpdateValue` and `FlagCache.Set` contracts, and the
write-through description all exist, but the orchestrator body itself
is absent, so it is rendered here from the spec's protocol: get the
flag (`NotFound` propagates), validate the new value against the
stored type (`TypeMismatch` propagates, store untouched), perform the
hard store write (any failure is fatal and the cache is not touched),
then the best-effort cache write whose outcome is discarded.  Since
the property under proof quantifies over store-write and cache-write
failures, both are injected as explicit parameters
(`updateInfraFail`, `cacheSetFail`). -/
def UpdateFlagValue (store : List Flag) (now : Nat)
    (updateInfraFail : Bool) (cacheSetFail : Bool)
    (name : GoString) (newValue : FlagValue) : Outcome Flag :=
  match storeGetByName store name with
  | .error e =>
    { result := .error e, store := store, trace := [.storeGetByName name false] }
  | .ok existingFlag =>
    match ValidateFlagValue existingFlag.type newValue with
    | .error e =>
      { result := .error e, store := store, trace := [.storeGetByName name true] }
    | .ok () =>
      if updateInfraFail then
        { result := .error .infra, store := store,
          trace := [.storeGetByName name true, .storeUpdateValue name false] }
      else
        match storeUpdateValue store name newValue now with
        | .error e =>
          { result := .error e, store := store,
            trace := [.storeGetByName name true, .storeUpdateValue name false] }
        | .ok (updated, store2) =>
          { result := .ok updated, store := store2,
            trace := [.storeGetByName name true, .storeUpdateValue name true,
              .cacheSet name (!cacheSetFail)] }

/-! ## Trace predicates -/

/-- Is the event a cache write? -/
def isCacheSet : Event → Bool
  | .cacheSet _ _ => true
  | _ => false

/-- Does the trace contain any cache write? -/
def hasCacheSet (trace : List Event) : Bool := trace.any isCacheSet

/-- Does the trace contain a failed store write (create or update)? -/
def hasFailedStoreWrite (trace : List Event) : Bool :=
  trace.any fun e =>
    match e with
    | .storeCreate _ ok => !ok
    | .storeUpdateValue _ ok => !ok
    | _ => false

/-- Scans the trace in order and accepts iff every cache write is
preceded by a store write that was observed to succeed.  The
accumulator records whether a successful store write has been seen so
far. -/
def cacheOnlyAfterStoreWriteOk (trace : List Event) (seenOk : Bool) : Bool :=
  match trace with
  | [] => true
  | .cacheSet _ _ :: rest => seenOk && cacheOnlyAfterStoreWriteOk rest seenOk
  | .storeCreate _ ok :: rest => cacheOnlyAfterStoreWriteOk rest (seenOk || ok)
  | .storeUpdateValue _ ok :: rest => cacheOnlyAfterStoreWriteOk rest (seenOk || ok)
  | _ :: rest => cacheOnlyAfterStoreWriteOk rest seenOk

/-! ## A spec-side predicate for value/type matching

Follows the words of spec §4.1, for comparison against the embedded
`ValidateFlagValue`. -/

/-- The spec's §4.1 condition for `validateFlagValue` success on the
two known kinds: the populated variant matches the type and the other
variant is absent (boolean present and numeric absent for `boolean`;
numeric present and boolean absent for `numeric`). -/
def specValueMatches (flagType : FlagType) (flagValue : FlagValue) : Bool :=
  if flagType = FlagTypeBoolean then flagValue.bool.isSome && flagValue.numeric.isNone
  else if flagType = FlagTypeNumeric then flagValue.numeric.isSome && flagValue.bool.isNone
  else false

/-! ## Concrete sample inputs (spec §8 scenarios and edge cases) -/

/-- The flag name of spec scenarios A and B. -/
def darkMode : GoString := goStr "dark-mode"

/-- A value with only the boolean variant populated (`{bool: true}`). -/
def vBoolSample : FlagValue := { bool := some true, numeric := none }

/-- A value with only the numeric variant populated. -/
def vNumSample : FlagValue := { bool := none, numeric := some 1 }

/-- A value with both variants populated. -/
def vBothSample : FlagValue := { bool := some true, numeric := some 1 }

/-- The zero/unset value with neither variant populated. -/
def vZeroSample : FlagValue := { bool := none, numeric := none }

/-- Spec scenario A request:
`CreateFlag("dark-mode", boolean, "", {bool: true})`. -/
def reqScenarioA : CreateFlagRequest :=
  { name := darkMode, type := goStr "boolean", description := [], value := vBoolSample }

/-- A request whose name violates I2 (uppercase first byte). -/
def reqBadName : CreateFlagRequest :=
  { name := goStr "MyFeature", type := goStr "boolean", description := [],
    value := vBoolSample }

/-- A request with an unknown type token. -/
def reqBadType : CreateFlagRequest :=
  { name := darkMode, type := goStr "string", description := [], value := vBoolSample }

/-- A request whose value does not match its (boolean) type. -/
def reqBadValue : CreateFlagRequest :=
  { name := darkMode, type := goStr "boolean", description := [], value := vNumSample }

/-- The flag record scenario A persists (at `now = 0`). -/
def flagScenarioA : Flag :=
  { name := darkMode, type := FlagTypeBoolean, description := [], value := vBoolSample,
    createdAt := 0, updatedAt := 0 }

/-- The response scenario A returns (at `now = 0`). -/
def respScenarioA : FlagResponse :=
  { name := darkMode, type := goStr "boolean", description := [], value := vBoolSample,
    createdAt := 0, updatedAt := 0 }

/-!
# Theorems

Helper lemmas first, then one theorem per claim (with its witness or
counterexample where required).
-/

/-- Characterization of `ValidateFlagName`: it never panics, and it
accepts exactly the names satisfying the conjunction of the five
rules (all rejections carry `invalidName`). -/
theorem validateFlagName_characterization (name : GoString) :
    ValidateFlagName name =
      some (if nameRulesConj name then Except.ok () else Except.error DomainError.invalidName) := by
  cases name with
  | nil => rfl
  | cons c cs =>
    obtain ⟨cl, hcl⟩ : ∃ cl, (c :: cs).getLast? = some cl := by
      have h := List.getLast?_isSome.mpr (List.cons_ne_nil c cs)
      exact Option.isSome_iff_exists.mp h
    have h1 : validateNotEmpty (c :: cs) = Except.ok () := by
      simp [validateNotEmpty]
    by_cases h63 : cs.length + 1 > 63
    · have h2 : validateMaxLength (c :: cs) = Except.error DomainError.invalidName := by
        simp [validateMaxLength, h63]
      have hm : ruleMaxLength (c :: cs) = false := by
        simp only [ruleMaxLength, List.length_cons, decide_eq_false_iff_not]
        omega
      simp [ValidateFlagName, h1, h2, nameRulesConj, hm]
    · have h2 : validateMaxLength (c :: cs) = Except.ok () := by
        simp [validateMaxLength, h63]
      have hm : ruleMaxLength (c :: cs) = true := by
        simp only [ruleMaxLength, List.length_cons, decide_eq_true_eq]
        omega
      by_cases hc : c < 97 ∨ c > 122
      · have h3 : validateStartsWithLetter (c :: cs) =
            some (Except.error DomainError.invalidName) := by
          simp [validateStartsWithLetter, hc]
        have hs : ruleStartsWithLetter (c :: cs) = false := by
          simp only [ruleStartsWithLetter, List.head?_cons, isLowerLetter,
            Bool.and_eq_false_iff, decide_eq_false_iff_not]
          omega
        simp [ValidateFlagName, h1, h2, h3, nameRulesConj, hs]
      · have h3 : validateStartsWithLetter (c :: cs) = some (Except.ok ()) := by
          simp [validateStartsWithLetter, hc]
        have hs : ruleStartsWithLetter (c :: cs) = true := by
          push_neg at hc
          simp only [ruleStartsWithLetter, List.head?_cons, isLowerLetter,
            Bool.and_eq_true, decide_eq_true_eq]
          omega
        by_cases hh : c = 45 ∨ cl = 45
        · have h4 : validateNoLeadingTrailingHyphen (c :: cs) =
              some (Except.error DomainError.invalidName) := by
            simp [validateNoLeadingTrailingHyphen, hcl, hh]
          have he : ruleNoEdgeHyphen (c :: cs) = false := by
            rcases hh with h | h <;> simp [ruleNoEdgeHyphen, hcl, h]
          simp [ValidateFlagName, h1, h2, h3, h4, nameRulesConj, he]
        · push_neg at hh
          have h4 : validateNoLeadingTrailingHyphen (c :: cs) = some (Except.ok ()) := by
            simp [validateNoLeadingTrailingHyphen, hcl, hh.1, hh.2]
          have he : ruleNoEdgeHyphen (c :: cs) = true := by
            simp [ruleNoEdgeHyphen, hcl, hh.1, hh.2]
          by_cases ha : (c :: cs).all allowedChar
          · have h5 : validateAllowedChars (c :: cs) = Except.ok () := by
              simp [validateAllowedChars, ha]
            simp [ValidateFlagName, h1, h2, h3, h4, h5, nameRulesConj, hm, hs, he,
              ruleNonEmpty, ruleAllowedChars, ha]
          · have h5 : validateAllowedChars (c :: cs) = Except.error DomainError.invalidName := by
              simp [validateAllowedChars, ha]
            simp [ValidateFlagName, h1, h2, h3, h4, h5, nameRulesConj, hm, hs, he,
              ruleNonEmpty, ruleAllowedChars, ha]

/-- The plain five-rule conjunction coincides with the spec's I2 shape
predicate (they list the same atomic rules, in different order). -/
theorem nameRulesConj_eq_specNameShapeI2 (name : GoString) :
    nameRulesConj name = specNameShapeI2 name := by
  have h : (name.length != 0) = decide (1 ≤ name.length) := by
    cases name <;> simp
  simp only [nameRulesConj, specNameShapeI2, ruleNonEmpty, ruleMaxLength, h]
  cases ruleStartsWithLetter name <;> cases ruleNoEdgeHyphen name <;>
    cases ruleAllowedChars name <;> cases decide (1 ≤ name.length) <;>
      cases decide (name.length ≤ 63) <;> rfl

/-- `parseFlagType` can only succeed with the raw token itself. -/
theorem parseFlagType_ok_eq {raw ft : GoString} (h : parseFlagType raw = Except.ok ft) :
    ft = raw := by
  unfold parseFlagType at h
  split at h
  · exact (Except.ok.injEq .. ▸ h).symm
  · exact absurd h (by simp)

/-- C1 counterexample: the claim says a value with both variants
populated fails with `TypeMismatch` for the `boolean` type, but
`ValidateFlagValue` accepts it — the code only checks that the
matching variant is present and never inspects the other variant. -/
theorem C1_both_variants_counterexample :
    ValidateFlagValue FlagTypeBoolean vBothSample = Except.ok () ∧
      specValueMatches FlagTypeBoolean vBothSample = false :=
  ⟨rfl, rfl⟩

/-- C1 (amended): for each of the two known flag types,
`ValidateFlagValue` succeeds iff the variant matching the type is
populated — the other variant is never examined — and every failure is
`TypeMismatch`. -/
theorem C1_matching_variant_only (flagType : FlagType) (flagValue : FlagValue)
    (h : flagType = FlagTypeBoolean ∨ flagType = FlagTypeNumeric) :
    (ValidateFlagValue flagType flagValue = Except.ok () ↔
      (if flagType = FlagTypeBoolean then flagValue.bool.isSome
        else flagValue.numeric.isSome) = true) ∧
      (ValidateFlagValue flagType flagValue ≠ Except.ok () →
        ValidateFlagValue flagType flagValue = Except.error DomainError.typeMismatch) := by
  have hne : FlagTypeNumeric ≠ FlagTypeBoolean := by decide
  rcases h with h | h <;> subst h
  · cases hb : flagValue.bool <;> simp [ValidateFlagValue, validateBooleanValue, hb]
  · cases hn : flagValue.numeric <;> simp [ValidateFlagValue, validateNumericValue, hn, hne]

/-- C1 witness: the amended theorem applied to the boolean type and a
boolean-only value. -/
theorem C1_matching_variant_only_witness :
    (FlagTypeBoolean = FlagTypeBoolean ∨ FlagTypeBoolean = FlagTypeNumeric) ∧
      ((ValidateFlagValue FlagTypeBoolean vBoolSample = Except.ok () ↔
        (if FlagTypeBoolean = FlagTypeBoolean then vBoolSample.bool.isSome
          else vBoolSample.numeric.isSome) = true) ∧
        (ValidateFlagValue FlagTypeBoolean vBoolSample ≠ Except.ok () →
          ValidateFlagValue FlagTypeBoolean vBoolSample = Except.error DomainError.typeMismatch)) :=
  ⟨Or.inl rfl, C1_matching_variant_only FlagTypeBoolean vBoolSample (Or.inl rfl)⟩

/-- C2: `ValidateFlagName` succeeds exactly on the names satisfying
invariant I2 (starts with a lowercase ASCII letter, only lowercase
letters, digits and hyphens, length 1-63, no leading or trailing
hyphen), and every violating name fails with `InvalidName`. -/
theorem C2_validateFlagName_iff_I2 (name : GoString) :
    (ValidateFlagName name = some (Except.ok ()) ↔ specNameShapeI2 name = true) ∧
      (specNameShapeI2 name = false →
        ValidateFlagName name = some (Except.error DomainError.invalidName)) := by
  have h := validateFlagName_characterization name
  rw [nameRulesConj_eq_specNameShapeI2] at h
  cases hI : specNameShapeI2 name <;> rw [h, hI] <;> simp

/-- C2 witness: the theorem applied to the name with a trailing
hyphen, which violates I2 and is rejected with `InvalidName`. -/
theorem C2_validateFlagName_iff_I2_witness :
    specNameShapeI2 (goStr "feature-") = false ∧
      ValidateFlagName (goStr "feature-") = some (Except.error DomainError.invalidName) :=
  ⟨rfl, (C2_validateFlagName_iff_I2 (goStr "feature-")).2 rfl⟩

/-- C8: the short-circuiting sequential name validation accepts
exactly when the plain conjunction of the five rules holds, and
rejects (with `InvalidName`) exactly when it does not — the checking
order never changes the accept/reject outcome. -/
theorem C8_order_matches_conjunction (name : GoString) :
    (ValidateFlagName name = some (Except.ok ()) ↔ nameRulesConj name = true) ∧
      (nameRulesConj name = false →
        ValidateFlagName name = some (Except.error DomainError.invalidName)) := by
  have h := validateFlagName_characterization name
  cases hI : nameRulesConj name <;> rw [h, hI] <;> simp

/-- C8 witness: the theorem applied to a name that starts with a
digit, which violates the conjunction and is rejected. -/
theorem C8_order_matches_conjunction_witness :
    nameRulesConj (goStr "1feature") = false ∧
      ValidateFlagName (goStr "1feature") = some (Except.error DomainError.invalidName) :=
  ⟨rfl, (C8_order_matches_conjunction (goStr "1feature")).2 rfl⟩

/-- C9: for every flag type token other than `boolean` and `numeric`,
`ValidateFlagValue` succeeds for every value — including the
zero/unset value — because the type `switch` has an implicit
accepting default. -/
theorem C9_unknown_type_accepts_all (flagType : FlagType) (flagValue : FlagValue)
    (h1 : flagType ≠ FlagTypeBoolean) (h2 : flagType ≠ FlagTypeNumeric) :
    ValidateFlagValue flagType flagValue = Except.ok () := by
  simp [ValidateFlagValue, h1, h2]

/-- C9 witness: the theorem applied to the unknown token `"string"`
and the zero/unset value. -/
theorem C9_unknown_type_accepts_all_witness :
    goStr "string" ≠ FlagTypeBoolean ∧ goStr "string" ≠ FlagTypeNumeric ∧
      ValidateFlagValue (goStr "string") vZeroSample = Except.ok () :=
  ⟨by decide, by decide,
    C9_unknown_type_accepts_all (goStr "string") vZeroSample (by decide) (by decide)⟩

/-- C10: `ValidateFlagName` is total — it never reaches an
out-of-bounds string index, because the non-empty check runs before
the checks that read the first and last byte. -/
theorem C10_validateFlagName_total (name : GoString) :
    (ValidateFlagName name).isSome = true := by
  rw [validateFlagName_characterization name]
  rfl

/-- C3: in every execution of the (spec-modelled) `UpdateFlagValue`,
a cache write is only ever attempted after a store write observed to
succeed, and if the store write fails no cache write occurs. -/
theorem C3_update_write_before_cache (store : List Flag) (now : Nat)
    (updateInfraFail cacheSetFail : Bool) (name : GoString) (newValue : FlagValue) :
    cacheOnlyAfterStoreWriteOk
        (UpdateFlagValue store now updateInfraFail cacheSetFail name newValue).trace false
        = true ∧
      (hasFailedStoreWrite
          (UpdateFlagValue store now updateInfraFail cacheSetFail name newValue).trace = true →
        hasCacheSet
          (UpdateFlagValue store now updateInfraFail cacheSetFail name newValue).trace
          = false) := by
  unfold UpdateFlagValue
  split
  · exact ⟨rfl, fun _ => rfl⟩
  · split
    · exact ⟨rfl, fun _ => rfl⟩
    · split
      · exact ⟨rfl, fun _ => rfl⟩
      · split
        · exact ⟨rfl, fun _ => rfl⟩
        · refine ⟨rfl, fun hcontra => ?_⟩
          simp [hasFailedStoreWrite] at hcontra

/-- C3 witness: the theorem applied to an execution in which the
store write is injected to fail: the trace records the failed write
and contains no cache write. -/
theorem C3_update_write_before_cache_witness :
    hasFailedStoreWrite
        (UpdateFlagValue [flagScenarioA] 1 true false darkMode vBoolSample).trace = true ∧
      hasCacheSet
        (UpdateFlagValue [flagScenarioA] 1 true false darkMode vBoolSample).trace = false :=
  ⟨rfl, (C3_update_write_before_cache [flagScenarioA] 1 true false darkMode vBoolSample).2 rfl⟩

/-- C4 counterexample: on the spec's scenario A request the store
create succeeds, yet `CreateFlag` performs no cache call at all — its
trace is the single store write and contains no `cacheSet` — so the
claim that `cache.set` is invoked after the store write is false of
this code (the service holds no cache). -/
theorem C4_no_cache_call_counterexample :
    (CreateFlag [] 0 reqScenarioA).trace = [Event.storeCreate darkMode true] ∧
      hasCacheSet (CreateFlag [] 0 reqScenarioA).trace = false :=
  ⟨rfl, rfl⟩

/-- C4 (amended): `CreateFlag` never makes any cache call — the
service's only collaborator is the store — and whenever the store
create succeeds the operation returns the created flag (so no cache
outcome can change the result, vacuously). -/
theorem C4_create_never_touches_cache (store : List Flag) (now : Nat)
    (req : CreateFlagRequest) :
    hasCacheSet (CreateFlag store now req).trace = false ∧
      (∀ n, Event.storeCreate n true ∈ (CreateFlag store now req).trace →
        ∃ resp, (CreateFlag store now req).result = Except.ok resp) := by
  unfold CreateFlag
  split
  · exact ⟨rfl, fun n hn => absurd hn (by simp)⟩
  · split
    · exact ⟨rfl, fun n hn => absurd hn (by simp)⟩
    · split
      · exact ⟨rfl, fun n hn => absurd hn (by simp)⟩
      · split
        · exact ⟨rfl, fun n hn => absurd hn (by simp)⟩
        · exact ⟨rfl, fun n hn => ⟨_, rfl⟩⟩

/-- C4 witness: the amended theorem applied to scenario A, where the
store write succeeded and the operation returned the created flag. -/
theorem C4_create_never_touches_cache_witness :
    Event.storeCreate darkMode true ∈ (CreateFlag [] 0 reqScenarioA).trace ∧
      ∃ resp, (CreateFlag [] 0 reqScenarioA).result = Except.ok resp :=
  ⟨by decide,
    (C4_create_never_touches_cache [] 0 reqScenarioA).2 darkMode (by decide)⟩

/-- C5: every domain-validation failure of `CreateFlag` is returned
without the store being invoked (empty trace, store state unchanged),
with `InvalidName`, `InvalidValue` and `TypeMismatch` produced by the
name, type and value checks in that order. -/
theorem C5_validation_before_store (store : List Flag) (now : Nat)
    (req : CreateFlagRequest) :
    (ValidateFlagName req.name = some (Except.error DomainError.invalidName) →
      CreateFlag store now req =
        { result := .error .invalidName, store := store, trace := [] }) ∧
      (ValidateFlagName req.name = some (Except.ok ()) →
        parseFlagType req.type = Except.error DomainError.invalidValue →
        CreateFlag store now req =
          { result := .error .invalidValue, store := store, trace := [] }) ∧
      (ValidateFlagName req.name = some (Except.ok ()) →
        ∀ ft, parseFlagType req.type = Except.ok ft →
          ValidateFlagValue ft { bool := req.value.bool, numeric := req.value.numeric } =
            Except.error DomainError.typeMismatch →
          CreateFlag store now req =
            { result := .error .typeMismatch, store := store, trace := [] }) := by
  refine ⟨?_, ?_, ?_⟩
  · intro h
    simp [CreateFlag, h]
  · intro h1 h2
    simp [CreateFlag, h1, h2]
  · intro h1 ft h2 h3
    simp [CreateFlag, h1, h2, h3]

/-- C5 witness: the theorem applied to three concrete requests, one
per validation failure. -/
theorem C5_validation_before_store_witness :
    CreateFlag [] 0 reqBadName =
        { result := .error .invalidName, store := [], trace := [] } ∧
      CreateFlag [] 0 reqBadType =
          { result := .error .invalidValue, store := [], trace := [] } ∧
        CreateFlag [] 0 reqBadValue =
          { result := .error .typeMismatch, store := [], trace := [] } :=
  ⟨(C5_validation_before_store [] 0 reqBadName).1 rfl,
    (C5_validation_before_store [] 0 reqBadType).2.1 rfl rfl,
    (C5_validation_before_store [] 0 reqBadValue).2.2 rfl FlagTypeBoolean rfl rfl⟩

/-- Shape of a successful `CreateFlag`: the response is the DTO built
from the flag stamped with the request fields and `now`. -/
theorem createFlag_ok_shape (store : List Flag) (now : Nat) (req : CreateFlagRequest)
    (resp : FlagResponse) (h : (CreateFlag store now req).result = Except.ok resp) :
    resp = flagToResponse
      { name := req.name, type := req.type, description := req.description,
        value := { bool := req.value.bool, numeric := req.value.numeric },
        createdAt := now, updatedAt := now } := by
  unfold CreateFlag at h
  split at h
  · simp at h
  · split at h
    · simp at h
    · split at h
      · simp at h
      · split at h
        · simp at h
        · rename_i hparse u hval sc store2 hstore
          simp only [Except.ok.injEq] at h
          subst h
          rw [parseFlagType_ok_eq hparse]

/-- C6: a successful `CreateFlag` returns a record carrying the
requested name, type, description and value, with
`createdAt = updatedAt = now` (the single UTC clock reading). -/
theorem C6_create_response_fields (store : List Flag) (now : Nat)
    (req : CreateFlagRequest) (resp : FlagResponse)
    (h : (CreateFlag store now req).result = Except.ok resp) :
    resp.name = req.name ∧ resp.type = req.type ∧
      resp.description = req.description ∧ resp.value = req.value ∧
      resp.createdAt = now ∧ resp.updatedAt = now := by
  rw [createFlag_ok_shape store now req resp h]
  exact ⟨rfl, rfl, rfl, rfl, rfl, rfl⟩

/-- C6 witness: the theorem applied to scenario A. -/
theorem C6_create_response_fields_witness :
    (CreateFlag [] 0 reqScenarioA).result = Except.ok respScenarioA ∧
      (respScenarioA.name = reqScenarioA.name ∧
        respScenarioA.type = reqScenarioA.type ∧
        respScenarioA.description = reqScenarioA.description ∧
        respScenarioA.value = reqScenarioA.value ∧
        respScenarioA.createdAt = 0 ∧ respScenarioA.updatedAt = 0) :=
  ⟨rfl, C6_create_response_fields [] 0 reqScenarioA respScenarioA rfl⟩

/-- C7: creating a flag whose (valid) name is already taken in the
store fails with `AlreadyExists` propagated unchanged, and the store —
in particular the previously stored record under that name — is left
unchanged. -/
theorem C7_duplicate_create (store : List Flag) (now : Nat) (req : CreateFlagRequest)
    (h1 : ValidateFlagName req.name = some (Except.ok ()))
    (h2 : ∃ ft, parseFlagType req.type = Except.ok ft ∧
      ValidateFlagValue ft { bool := req.value.bool, numeric := req.value.numeric } =
        Except.ok ())
    (h3 : storeHas store req.name = true) :
    CreateFlag store now req =
      { result := .error .alreadyExists, store := store,
        trace := [.storeCreate req.name false] } := by
  obtain ⟨ft, hft, hval⟩ := h2
  simp [CreateFlag, h1, hft, hval, storeCreate, h3]

/-- C7 witness: the theorem applied to spec scenario B — creating
`"dark-mode"` a second time. -/
theorem C7_duplicate_create_witness :
    ValidateFlagName reqScenarioA.name = some (Except.ok ()) ∧
      storeHas [flagScenarioA] reqScenarioA.name = true ∧
      CreateFlag [flagScenarioA] 0 reqScenarioA =
        { result := .error .alreadyExists, store := [flagScenarioA],
          trace := [.storeCreate reqScenarioA.name false] } :=
  ⟨rfl, rfl,
    C7_duplicate_create [flagScenarioA] 0 reqScenarioA rfl
      ⟨FlagTypeBoolean, rfl, rfl⟩ rfl⟩

end FeatureFlags
